import Mathlib

/-!
Shallow embedding of the UFL geometry-lowering and restriction-propagation
rule sets (`ufl/algorithms/apply_geometry_lowering.py` and
`ufl/algorithms/apply_restrictions.py`), together with theorems settling the
frozen claims about them.

Modelling conventions:
* Expression nodes are an inductive type `UFL.Expr`; the external expression
  class hierarchy is out of scope of the source, so only the node kinds the
  two rule sets inspect are represented, each carrying its domain payload.
* The external tensor-algebra builders (`determinant_expr`, `inverse_expr`)
  are opaque expression constructors, exactly as the spec scopes them.
* UFL `Index()` objects are fresh symbolic indices scoped to the expression
  in which they occur; the embedding represents them by natural-number ids,
  numbering the source's fresh-index calls in order of creation (0, 1, 2).
* Python `ValueError` raises become `Except` errors; `warnings.warn` followed
  by `return o` is modelled as returning the node unchanged (the warning is a
  side effect with no influence on the result value).
* The memoization caches of `map_expr_dag` and `memoized_handler` are keyed
  by node identity and only affect sharing of the (immutable) result nodes,
  never which value is computed, so the pure embedding elides them.
-/

deriving instance DecidableEq for Except

namespace UFL

/-- Side tag of a `Restricted` wrapper: `+` or `-`. -/
inductive Side where
  | plus
  | minus
deriving DecidableEq

/-- Cell-type names used by the geometry-lowering handlers. -/
inductive CellName where
  | vertex
  | interval
  | triangle
  | tetrahedron
  | quadrilateral
  | hexahedron
deriving DecidableEq

/-- External `Domain` collaborator: dimension queries, cell-type name and
coordinate-element metadata, exactly the queries the two rule sets make. -/
structure Domain where
  tdim : Nat
  gdim : Nat
  cellname : CellName
  pullbackIsIdentity : Bool
  isPiecewiseLinearSimplex : Bool
  embeddedSubdegree : Nat
  embeddedSuperdegree : Nat
  coordElementInH1 : Bool
deriving DecidableEq

set_option maxHeartbeats 2000000 in
/-- Expression nodes: the fragment of the UFL node vocabulary inspected by
the geometry-lowering and restriction-propagation rule sets.  Terminal
geometric quantities carry their `Domain`; `var` is the `Variable` wrapper
(operand plus a `Label` id); `indexedFree` is `base[i, j]` with two free
indices, `indexedFixFree` is `base[e, j]` with a fixed position `e` and one
free index, `indexSum` is the implicit Einstein summation over a repeated
index, and `componentTensor` is `as_tensor(expr, (i, j))`. -/
inductive Expr where
  | spatialCoordinate (D : Domain)
  | cellCoordinate (D : Domain)
  | facetCellCoordinate (D : Domain)
  | jacobian (D : Domain)
  | jacobianInverse (D : Domain)
  | jacobianDeterminant (D : Domain)
  | facetJacobian (D : Domain)
  | facetJacobianInverse (D : Domain)
  | facetJacobianDeterminant (D : Domain)
  | cellVolume (D : Domain)
  | facetArea (D : Domain)
  | circumradius (D : Domain)
  | cellOrientation (D : Domain)
  | cellOrigin (D : Domain)
  | referenceCellVolume (D : Domain)
  | referenceFacetVolume (D : Domain)
  | referenceNormal (D : Domain)
  | cellFacetJacobian (D : Domain)
  | cellEdgeVectors (D : Domain)
  | facetNormal (D : Domain)
  | quadratureWeight (D : Domain)
  | floatValue (q : ℚ)
  | intValue (n : ℤ)
  | coefficient (id : Nat) (inH1 : Bool)
  | argument (id : Nat)
  | restricted (e : Expr) (s : Side)
  | neg (e : Expr)
  | mult (a b : Expr)
  | add (a b : Expr)
  | sub (a b : Expr)
  | div (a b : Expr)
  | absE (e : Expr)
  | sqrtE (e : Expr)
  | realE (e : Expr)
  | conjE (e : Expr)
  | referenceGrad (e : Expr)
  | grad (e : Expr)
  | var (e : Expr) (lbl : Nat)
  | referenceValue (e : Expr)
  | determinantExpr (e : Expr)
  | inverseExpr (e : Expr)
  | indexedFree (e : Expr) (i j : Nat)
  | indexedFixFree (e : Expr) (pos : Nat) (j : Nat)
  | indexSum (e : Expr) (j : Nat)
  | componentTensor (e : Expr) (i j : Nat)
deriving DecidableEq

/-- Typecodes of the geometric-quantity kinds that can be preserved; the
source's boolean `_preserve_types` table indexed by `_ufl_typecode_` becomes
membership in a list of these tags. -/
inductive GKind where
  | tSpatialCoordinate
  | tCellCoordinate
  | tFacetCellCoordinate
  | tJacobian
  | tJacobianInverse
  | tJacobianDeterminant
  | tFacetJacobian
  | tFacetJacobianInverse
  | tFacetJacobianDeterminant
  | tCellVolume
  | tFacetArea
  | tCircumradius
deriving DecidableEq

/-- Lookup in the preserve table (`self._preserve_types[o._ufl_typecode_]`). -/
def preserves (P : List GKind) (k : GKind) : Bool :=
  P.contains k

/-- Errors raised by the geometry-lowering handlers. -/
inductive GErr where
  | piolaMappedCoordinates
  | missingFacetCellCoordinateComputation
  | circumradiusNonAffine
deriving DecidableEq

/-- Handler `GeometryLoweringApplier.spatial_coordinate` applied to
`SpatialCoordinate(D)`: preserved nodes are returned unchanged; a
non-identity pullback raises; otherwise the `SpatialCoordinate` object is
always preserved. -/
def spatialCoordinateH (P : List GKind) (D : Domain) : Except GErr Expr :=
  if preserves P .tSpatialCoordinate then
    .ok (.spatialCoordinate D)
  else if !D.pullbackIsIdentity then
    .error .piolaMappedCoordinates
  else
    .ok (.spatialCoordinate D)

/-- Handler `GeometryLoweringApplier.jacobian` applied to `Jacobian(D)`:
preserved nodes are returned unchanged; a non-identity pullback raises;
otherwise the Jacobian is represented as
`ReferenceGrad(SpatialCoordinate(domain))`. -/
def jacobianH (P : List GKind) (D : Domain) : Except GErr Expr :=
  if preserves P .tJacobian then
    .ok (.jacobian D)
  else if !D.pullbackIsIdentity then
    .error .piolaMappedCoordinates
  else do
    let x ← spatialCoordinateH P D
    return .referenceGrad x

/-- Handler `GeometryLoweringApplier.jacobian_determinant` applied to
`JacobianDeterminant(D)`: determinant of the recursively lowered Jacobian,
multiplied by `CellOrientation(domain)` when the topological dimension is
strictly below the geometric dimension. -/
def jacobianDeterminantH (P : List GKind) (D : Domain) : Except GErr Expr :=
  if preserves P .tJacobianDeterminant then
    .ok (.jacobianDeterminant D)
  else do
    let J ← jacobianH P D
    let detJ := Expr.determinantExpr J
    if D.tdim < D.gdim then
      return .mult (.cellOrientation D) detJ
    else
      return detJ

/-- Handler `GeometryLoweringApplier.facet_jacobian` applied to
`FacetJacobian(D)`: the lowered Jacobian contracted with
`CellFacetJacobian(domain)`, `as_tensor(J[i, k] * RFJ[k, j], (i, j))` with
`i, j, k = indices(3)` embedded as ids 0, 1, 2. -/
def facetJacobianH (P : List GKind) (D : Domain) : Except GErr Expr :=
  if preserves P .tFacetJacobian then
    .ok (.facetJacobian D)
  else do
    let J ← jacobianH P D
    let RFJ := Expr.cellFacetJacobian D
    return .componentTensor
      (.indexSum (.mult (.indexedFree J 0 2) (.indexedFree RFJ 2 1)) 2) 0 1

/-- Handler `GeometryLoweringApplier.facet_jacobian_determinant` applied to
`FacetJacobianDeterminant(D)`: determinant of the lowered facet Jacobian,
never sign-corrected by `CellOrientation`. -/
def facetJacobianDeterminantH (P : List GKind) (D : Domain) : Except GErr Expr :=
  if preserves P .tFacetJacobianDeterminant then
    .ok (.facetJacobianDeterminant D)
  else do
    let FJ ← facetJacobianH P D
    return .determinantExpr FJ

/-- Handler `GeometryLoweringApplier.cell_volume` applied to
`CellVolume(D)`: returned unchanged (with a warning) on non-affine domains;
otherwise `abs(detJ * ReferenceCellVolume(domain))`. -/
def cellVolumeH (P : List GKind) (D : Domain) : Except GErr Expr :=
  if preserves P .tCellVolume then
    .ok (.cellVolume D)
  else if !D.isPiecewiseLinearSimplex then
    .ok (.cellVolume D)
  else do
    let r ← jacobianDeterminantH P D
    return .absE (.mult r (.referenceCellVolume D))

/-- Handler `GeometryLoweringApplier.facet_area` applied to `FacetArea(D)`:
returned unchanged (with a warning) on non-affine domains; on affine
domains of topological dimension 1 the facet "area" is `FloatValue(1.0)`;
otherwise `abs(detFJ * ReferenceFacetVolume(domain))`. -/
def facetAreaH (P : List GKind) (D : Domain) : Except GErr Expr :=
  if preserves P .tFacetArea then
    .ok (.facetArea D)
  else if !D.isPiecewiseLinearSimplex then
    .ok (.facetArea D)
  else if D.tdim = 1 then
    .ok (.floatValue 1)
  else do
    let r ← facetJacobianDeterminantH P D
    return .absE (.mult r (.referenceFacetVolume D))

/-- Handler `GeometryLoweringApplier.facet_cell_coordinate` applied to
`FacetCellCoordinate(D)`: preserved nodes are returned unchanged, every
other request raises the missing-computation error. -/
def facetCellCoordinateH (P : List GKind) (D : Domain) : Except GErr Expr :=
  if preserves P .tFacetCellCoordinate then
    .ok (.facetCellCoordinate D)
  else
    .error .missingFacetCellCoordinateComputation

/-- Edge length `elen[e]` of the circumradius handler:
`real(sqrt(real(edges[e, j] * conj(edges[e, j]))))`, with the single fresh
`Index()` embedded as id 0 and the repeated index giving an implicit sum. -/
def circumradiusElen (D : Domain) (e : Nat) : Expr :=
  .realE (.sqrtE (.realE (.indexSum
    (.mult (.indexedFixFree (.cellEdgeVectors D) e 0)
      (.conjE (.indexedFixFree (.cellEdgeVectors D) e 0))) 0)))

/-- Handler `GeometryLoweringApplier.circumradius` applied to
`Circumradius(D)`.  The Python function has no final `else` branch: on a
cell name other than interval, triangle or tetrahedron it falls off the end
and returns `None`, embedded here as `Option Expr` inside the result. -/
def circumradiusH (P : List GKind) (D : Domain) : Except GErr (Option Expr) :=
  if preserves P .tCircumradius then
    .ok (some (.circumradius D))
  else if !D.isPiecewiseLinearSimplex then
    .error .circumradiusNonAffine
  else do
    let cellvolume ← cellVolumeH P D
    if D.cellname = .interval then
      return some (.mult (.floatValue 0.5) cellvolume)
    else
      let elen := circumradiusElen D
      if D.cellname = .triangle then
        return some (.div (.mult (.mult (elen 0) (elen 1)) (elen 2))
          (.mult (.floatValue 4) cellvolume))
      else if D.cellname = .tetrahedron then
        let la := Expr.mult (elen 3) (elen 2)
        let lb := Expr.mult (elen 4) (elen 1)
        let lc := Expr.mult (elen 5) (elen 0)
        let p := Expr.add (.add la lb) lc
        let s := Expr.div p (.intValue 2)
        let triangleArea := Expr.sqrtE
          (.mult (.mult (.mult s (.sub s la)) (.sub s lb)) (.sub s lc))
        return some (.div triangleArea (.mult (.floatValue 6) cellvolume))
      else
        return none

/-- Integral-type tags of the measure registry (external collaborator).
Modelled from the spec: the integral/measure type registry is out of scope
of the source files; the tags are those of
`ufl.measure.integral_type_to_measure_name`, with `custom_integral_types`
being custom, cutcell, interface and overlap, `point_integral_types` being
vertex, and the interior-facet family being the tags whose name starts with
`interior_facet`. -/
inductive IntegralType where
  | cell
  | exteriorFacet
  | exteriorFacetBottom
  | exteriorFacetTop
  | exteriorFacetVert
  | interiorFacet
  | interiorFacetHoriz
  | interiorFacetVert
  | vertex
  | custom
  | cutcell
  | interfaceType
  | overlap
deriving DecidableEq

/-- `ufl.measure.custom_integral_types`. -/
def customIntegralTypes : List IntegralType :=
  [.custom, .cutcell, .interfaceType, .overlap]

/-- `ufl.measure.point_integral_types`. -/
def pointIntegralTypes : List IntegralType :=
  [.vertex]

/-- Tags whose registry name starts with `interior_facet` (the list built by
`apply_restrictions` from the measure registry keys). -/
def IntegralType.isInteriorFacet : IntegralType → Bool
  | .interiorFacet => true
  | .interiorFacetHoriz => true
  | .interiorFacetVert => true
  | _ => false

/-- Integral: an integrand node and its integral-type tag (the domain and
remaining metadata are preserved untouched by `reconstruct`, so only the
fields the two entry points read are represented). -/
structure Integral where
  integrand : Expr
  itype : IntegralType
deriving DecidableEq

/-- Automatic preserve list computed by `apply_geometry_lowering` for one
integral: `[SpatialCoordinate, Jacobian]` for custom and point integral
types, `[CellCoordinate]` for every other integral type. -/
def automaticPreserveTypes (it : IntegralType) : List GKind :=
  if (customIntegralTypes ++ pointIntegralTypes).contains it then
    [.tSpatialCoordinate, .tJacobian]
  else
    [.tCellCoordinate]

/-- Membership in the effective preserve set
`set(preserve_types) | set(automatic_preserve_types)` that
`apply_geometry_lowering` hands to `GeometryLoweringApplier` for an
integral of type `it`. -/
def effPreserves (caller : List GKind) (it : IntegralType) (k : GKind) : Bool :=
  preserves caller k || preserves (automaticPreserveTypes it) k

/-- Errors raised by the restriction-propagation rule set. -/
inductive RErr where
  | doubleRestriction
  | mustBeRestricted
  | missingRule
deriving DecidableEq

/-- Rule `RestrictionPropagator._ignore_restriction`: the quantity is
independent of the side. -/
def ignoreRestriction (o : Expr) : Except RErr Expr :=
  .ok o

/-- Rule `RestrictionPropagator._require_restriction`: a discontinuous
quantity must have a side set; `o(side)` constructs `Restricted(o, side)`. -/
def requireRestriction (side : Option Side) (o : Expr) : Except RErr Expr :=
  match side with
  | none => .error .mustBeRestricted
  | some r => .ok (.restricted o r)

/-- Rule `RestrictionPropagator._default_restricted`: use the current side
if set; otherwise use the default side `+` when `apply_default` is on, else
leave the node unrestricted. -/
def defaultRestricted (ad : Bool) (side : Option Side) (o : Expr) : Except RErr Expr :=
  match side with
  | some r => .ok (.restricted o r)
  | none =>
    if ad then .ok (.restricted o .plus)
    else .ok o

/-- Rule `RestrictionPropagator._opposite`: require a side; at the default
side `+` evaluate there, at the other side negate the value at `+`. -/
def oppositeRestriction (side : Option Side) (o : Expr) : Except RErr Expr :=
  match side with
  | none => .error .mustBeRestricted
  | some r =>
    if r = .plus then .ok (.restricted o .plus)
    else .ok (.neg (.restricted o .plus))

/-- Handler `RestrictionPropagator.facet_normal`: on a mesh whose coordinate
element has embedded superdegree at most 1, is H1-conforming, and whose
geometric and topological dimensions agree, apply the `_opposite` sign-flip
rule; otherwise require a side and respect it. -/
def facetNormalRestriction (side : Option Side) (D : Domain) : Except RErr Expr :=
  if D.embeddedSuperdegree ≤ 1 && D.coordElementInH1 && D.gdim == D.tdim then
    oppositeRestriction side (.facetNormal D)
  else
    requireRestriction side (.facetNormal D)

/-- Restriction propagation of one expression by `RestrictionPropagator`
with current side `side` and flag `apply_default = ad`.  Each constructor is
mapped to the rule its UFL class receives: explicit handlers where the
source names one, the `geometric_cell_quantity`/`geometric_facet_quantity`
catch-all (`_require_restriction`) for the remaining geometric terminals,
`_ignore_restriction` for literals, and reconstruct-with-transformed-children
for operators without an explicit rule (`reuse_if_untouched`; node identity
makes reuse semantically transparent here).  A `Restricted` node met with a
side already set raises the double-restriction error; with no side set its
subtree is delegated to the propagator bound to that node's side. -/
def propagateR (ad : Bool) (side : Option Side) : Expr → Except RErr Expr
  | .restricted e s =>
    match side with
    | some _ => .error .doubleRestriction
    | none => propagateR ad (some s) e
  | .spatialCoordinate D => defaultRestricted ad side (.spatialCoordinate D)
  | .cellCoordinate D => requireRestriction side (.cellCoordinate D)
  | .facetCellCoordinate D => requireRestriction side (.facetCellCoordinate D)
  | .jacobian D => requireRestriction side (.jacobian D)
  | .jacobianInverse D => requireRestriction side (.jacobianInverse D)
  | .jacobianDeterminant D => requireRestriction side (.jacobianDeterminant D)
  | .facetJacobian D => defaultRestricted ad side (.facetJacobian D)
  | .facetJacobianInverse D => defaultRestricted ad side (.facetJacobianInverse D)
  | .facetJacobianDeterminant D => defaultRestricted ad side (.facetJacobianDeterminant D)
  | .cellVolume D => requireRestriction side (.cellVolume D)
  | .facetArea D => defaultRestricted ad side (.facetArea D)
  | .circumradius D => requireRestriction side (.circumradius D)
  | .cellOrientation D => requireRestriction side (.cellOrientation D)
  | .cellOrigin D => requireRestriction side (.cellOrigin D)
  | .referenceCellVolume D => ignoreRestriction (.referenceCellVolume D)
  | .referenceFacetVolume D => ignoreRestriction (.referenceFacetVolume D)
  | .referenceNormal D => requireRestriction side (.referenceNormal D)
  | .cellFacetJacobian D => requireRestriction side (.cellFacetJacobian D)
  | .cellEdgeVectors D => requireRestriction side (.cellEdgeVectors D)
  | .facetNormal D => facetNormalRestriction side D
  | .quadratureWeight D => ignoreRestriction (.quadratureWeight D)
  | .floatValue q => ignoreRestriction (.floatValue q)
  | .intValue n => ignoreRestriction (.intValue n)
  | .coefficient id h1 =>
    if h1 then defaultRestricted ad side (.coefficient id h1)
    else requireRestriction side (.coefficient id h1)
  | .argument id => requireRestriction side (.argument id)
  | .neg e => do return .neg (← propagateR ad side e)
  | .mult a b => do return .mult (← propagateR ad side a) (← propagateR ad side b)
  | .add a b => do return .add (← propagateR ad side a) (← propagateR ad side b)
  | .sub a b => do return .sub (← propagateR ad side a) (← propagateR ad side b)
  | .div a b => do return .div (← propagateR ad side a) (← propagateR ad side b)
  | .absE e => do return .absE (← propagateR ad side e)
  | .sqrtE e => do return .sqrtE (← propagateR ad side e)
  | .realE e => do return .realE (← propagateR ad side e)
  | .conjE e => do return .conjE (← propagateR ad side e)
  | .referenceGrad e => do return .referenceGrad (← propagateR ad side e)
  | .grad e => requireRestriction side (.grad e)
  | .var e _lbl => propagateR ad side e
  | .referenceValue f => do
    let g ← propagateR ad side f
    match g with
    | .restricted _ s => return .restricted (.referenceValue f) s
    | _ => return .referenceValue f
  | .determinantExpr e => do return .determinantExpr (← propagateR ad side e)
  | .inverseExpr e => do return .inverseExpr (← propagateR ad side e)
  | .indexedFree e i j => do return .indexedFree (← propagateR ad side e) i j
  | .indexedFixFree e p j => do return .indexedFixFree (← propagateR ad side e) p j
  | .indexSum e j => do return .indexSum (← propagateR ad side e) j
  | .componentTensor e i j => do return .componentTensor (← propagateR ad side e) i j

/-- One integral under `apply_restrictions`.  Modelled from the spec: the
orchestration helper `map_integrand_dags` is outside the source files; per
the spec only integrals whose integral type is an interior-facet type are
passed through the rule set (a fresh top-level propagator with side unset),
all others are returned unchanged. -/
def applyRestrictionsIntegral (ad : Bool) (itg : Integral) : Except RErr Integral :=
  if itg.itype.isInteriorFacet then
    match propagateR ad none itg.integrand with
    | .error err => .error err
    | .ok e => .ok { itg with integrand := e }
  else
    .ok itg

/-- Entry point `apply_restrictions` on a form (ordered integral list). -/
def applyRestrictionsForm (ad : Bool) : List Integral → Except RErr (List Integral)
  | [] => .ok []
  | itg :: rest =>
    match applyRestrictionsIntegral ad itg with
    | .error err => .error err
    | .ok itg2 =>
      match applyRestrictionsForm ad rest with
      | .error err => .error err
      | .ok rest2 => .ok (itg2 :: rest2)

/-- Top-level shape test: does the expression carry the `CellOrientation`
sign factor produced by the determinant lowering? -/
def hasCellOrientationFactor : Expr → Bool
  | .mult (.cellOrientation _) _ => true
  | _ => false

/-- Affine unit triangle domain with full dimension (tdim = gdim = 2). -/
def DomTri : Domain :=
  { tdim := 2, gdim := 2, cellname := .triangle, pullbackIsIdentity := true,
    isPiecewiseLinearSimplex := true, embeddedSubdegree := 1,
    embeddedSuperdegree := 1, coordElementInH1 := true }

/-- Affine triangle surface immersed in 3-D (tdim = 2 < gdim = 3). -/
def DomSurf : Domain :=
  { tdim := 2, gdim := 3, cellname := .triangle, pullbackIsIdentity := true,
    isPiecewiseLinearSimplex := true, embeddedSubdegree := 1,
    embeddedSuperdegree := 1, coordElementInH1 := true }

/-- Curved (degree-2 coordinate) interval: topological dimension 1 but not a
piecewise-linear simplex domain. -/
def DomCurvedInterval : Domain :=
  { tdim := 1, gdim := 1, cellname := .interval, pullbackIsIdentity := true,
    isPiecewiseLinearSimplex := false, embeddedSubdegree := 2,
    embeddedSuperdegree := 2, coordElementInH1 := true }

/-- Affine interval domain (tdim = gdim = 1). -/
def DomInterval : Domain :=
  { tdim := 1, gdim := 1, cellname := .interval, pullbackIsIdentity := true,
    isPiecewiseLinearSimplex := true, embeddedSubdegree := 1,
    embeddedSuperdegree := 1, coordElementInH1 := true }

/-- Degenerate vertex-cell domain that still satisfies the affine
piecewise-linear-simplex predicate. -/
def DomVertex : Domain :=
  { tdim := 0, gdim := 0, cellname := .vertex, pullbackIsIdentity := true,
    isPiecewiseLinearSimplex := true, embeddedSubdegree := 1,
    embeddedSuperdegree := 1, coordElementInH1 := true }

/-- Claim C1, counterexample: for a plain cell integral with an empty
caller-supplied preserve set, the effective preserve set contains
CellCoordinate but neither SpatialCoordinate nor Jacobian, contradicting
the claim that non-custom/point integral types preserve all three. -/
theorem c1_counterexample :
    effPreserves [] .cell .tCellCoordinate = true ∧
    effPreserves [] .cell .tSpatialCoordinate = false ∧
    effPreserves [] .cell .tJacobian = false := by
  decide

/-- Claim C1, amended: each integral's effective preserve set is the
caller-supplied set united with a non-overridable automatic minimum that is
{SpatialCoordinate, Jacobian} for custom and point integral types and
{CellCoordinate} alone (not additionally) for every other integral type. -/
theorem c1_effective_preserve_minimum (caller : List GKind) (it : IntegralType)
    (k : GKind) :
    effPreserves caller it k = true ↔
      (preserves caller k = true ∨
        (if (customIntegralTypes ++ pointIntegralTypes).contains it then
          k = .tSpatialCoordinate ∨ k = .tJacobian
        else
          k = .tCellCoordinate)) := by
  cases it <;> cases k <;>
    simp [effPreserves, automaticPreserveTypes, preserves,
      customIntegralTypes, pointIntegralTypes]

/-- Claim C2: on a domain whose coordinate element has embedded superdegree
at most 1, is H1-conforming and has gdim = tdim, restriction propagation
maps FacetNormal at side + to the normal restricted to +, at side - to the
exact negation of the normal restricted to +, and with no side set raises
the must-be-restricted error. -/
theorem c2_facet_normal_opposite (ad : Bool) (D : Domain)
    (hdeg : D.embeddedSuperdegree ≤ 1) (hh1 : D.coordElementInH1 = true)
    (hdim : D.gdim = D.tdim) :
    propagateR ad (some .plus) (.facetNormal D) =
      .ok (.restricted (.facetNormal D) .plus) ∧
    propagateR ad (some .minus) (.facetNormal D) =
      .ok (.neg (.restricted (.facetNormal D) .plus)) ∧
    propagateR ad none (.facetNormal D) = .error .mustBeRestricted := by
  have hcond :
      (D.embeddedSuperdegree ≤ 1 && D.coordElementInH1 && D.gdim == D.tdim) = true := by
    simp [hdeg, hh1, hdim]
  refine ⟨?_, ?_, ?_⟩ <;>
    simp [propagateR, facetNormalRestriction, hcond, oppositeRestriction]

/-- Claim C2 witness: the three conclusions at the affine triangle domain. -/
theorem c2_facet_normal_opposite_witness :
    propagateR true (some .plus) (.facetNormal DomTri) =
      .ok (.restricted (.facetNormal DomTri) .plus) ∧
    propagateR true (some .minus) (.facetNormal DomTri) =
      .ok (.neg (.restricted (.facetNormal DomTri) .plus)) ∧
    propagateR true none (.facetNormal DomTri) = .error .mustBeRestricted :=
  c2_facet_normal_opposite true DomTri (by decide) (by decide) (by decide)

/-- Claim C3: lowering a non-preserved JacobianDeterminant yields the
determinant of the lowered Jacobian, with the CellOrientation factor present
exactly when tdim < gdim and absent when the dimensions agree. -/
theorem c3_jacobian_determinant_sign (P : List GKind) (D : Domain) (J : Expr)
    (hpres : preserves P .tJacobianDeterminant = false)
    (hJ : jacobianH P D = .ok J) :
    jacobianDeterminantH P D =
      .ok (if D.tdim < D.gdim then
            .mult (.cellOrientation D) (.determinantExpr J)
          else
            .determinantExpr J) ∧
    hasCellOrientationFactor
      (if D.tdim < D.gdim then
        Expr.mult (.cellOrientation D) (.determinantExpr J)
      else
        Expr.determinantExpr J) = decide (D.tdim < D.gdim) := by
  constructor
  · unfold jacobianDeterminantH
    simp only [hpres, Bool.false_eq_true, if_false, hJ]
    by_cases h : D.tdim < D.gdim <;> simp [h, Except.bind]
  · split <;> simp_all [hasCellOrientationFactor]

/-- Claim C3 witness: both hypotheses discharged on the immersed triangle
surface, where the orientation factor appears. -/
theorem c3_jacobian_determinant_sign_witness :
    jacobianDeterminantH [] DomSurf =
      .ok (if DomSurf.tdim < DomSurf.gdim then
            .mult (.cellOrientation DomSurf)
              (.determinantExpr (.referenceGrad (.spatialCoordinate DomSurf)))
          else
            .determinantExpr (.referenceGrad (.spatialCoordinate DomSurf))) ∧
    hasCellOrientationFactor
      (if DomSurf.tdim < DomSurf.gdim then
        Expr.mult (.cellOrientation DomSurf)
          (.determinantExpr (.referenceGrad (.spatialCoordinate DomSurf)))
      else
        Expr.determinantExpr (.referenceGrad (.spatialCoordinate DomSurf))) =
      decide (DomSurf.tdim < DomSurf.gdim) :=
  c3_jacobian_determinant_sign [] DomSurf
    (.referenceGrad (.spatialCoordinate DomSurf)) (by decide) (by decide)

/-- Claim C4: with Jacobian preserved but JacobianDeterminant not,
lowering JacobianDeterminant still builds the determinant formula, but over
the unlowered Jacobian terminal, which is a different node from the
ReferenceGrad-of-SpatialCoordinate representation. -/
theorem c4_preserve_not_transitive (P : List GKind) (D : Domain)
    (hJ : preserves P .tJacobian = true)
    (hD : preserves P .tJacobianDeterminant = false) :
    jacobianDeterminantH P D =
      .ok (if D.tdim < D.gdim then
            .mult (.cellOrientation D) (.determinantExpr (.jacobian D))
          else
            .determinantExpr (.jacobian D)) ∧
    Expr.jacobian D ≠ .referenceGrad (.spatialCoordinate D) := by
  have hjac : jacobianH P D = .ok (.jacobian D) := by
    unfold jacobianH
    simp [hJ]
  constructor
  · unfold jacobianDeterminantH
    simp only [hD, Bool.false_eq_true, if_false, hjac]
    by_cases h : D.tdim < D.gdim <;> simp [h, Except.bind]
  · intro h
    exact Expr.noConfusion h

/-- Claim C4 witness: preserve set {Jacobian} on the full-dimensional
triangle, where the unsigned branch is taken. -/
theorem c4_preserve_not_transitive_witness :
    jacobianDeterminantH [.tJacobian] DomTri =
      .ok (if DomTri.tdim < DomTri.gdim then
            .mult (.cellOrientation DomTri) (.determinantExpr (.jacobian DomTri))
          else
            .determinantExpr (.jacobian DomTri)) ∧
    Expr.jacobian DomTri ≠ .referenceGrad (.spatialCoordinate DomTri) :=
  c4_preserve_not_transitive [.tJacobian] DomTri (by decide) (by decide)

/-- Claim C5, counterexample: on a topological-dimension-1 domain that is
not an affine piecewise-linear simplex domain, the non-preserved FacetArea
node is returned unchanged (after a warning), not lowered to the constant
1.0. -/
theorem c5_counterexample :
    facetAreaH [] DomCurvedInterval = .ok (.facetArea DomCurvedInterval) ∧
    (Except.ok (Expr.facetArea DomCurvedInterval) : Except GErr Expr) ≠
      .ok (.floatValue 1) := by
  decide

/-- Claim C5, amended: on an affine piecewise-linear simplex domain of
topological dimension 1, a non-preserved FacetArea lowers to the constant
1.0; on non-affine domains the node is returned unchanged instead. -/
theorem c5_facet_area_interval (P : List GKind) (D : Domain)
    (hpres : preserves P .tFacetArea = false)
    (haff : D.isPiecewiseLinearSimplex = true)
    (htd : D.tdim = 1) :
    facetAreaH P D = .ok (.floatValue 1) := by
  unfold facetAreaH
  simp [hpres, haff, htd]

/-- Claim C5 witness: the affine interval domain. -/
theorem c5_facet_area_interval_witness :
    facetAreaH [] DomInterval = .ok (.floatValue 1) :=
  c5_facet_area_interval [] DomInterval (by decide) (by decide) (by decide)

/-- Claim C6, counterexample: with FacetCellCoordinate itself in the
preserve set, the handler returns the node unchanged instead of raising, so
the error is not raised for every preserve set. -/
theorem c6_counterexample :
    facetCellCoordinateH [.tFacetCellCoordinate] DomTri =
      .ok (.facetCellCoordinate DomTri) := by
  decide

/-- Claim C6, amended: whenever FacetCellCoordinate is not in the preserve
set, the handler raises the missing-computation error unconditionally; a
preserved node is returned unchanged. -/
theorem c6_facet_cell_coordinate_error (P : List GKind) (D : Domain)
    (hpres : preserves P .tFacetCellCoordinate = false) :
    facetCellCoordinateH P D = .error .missingFacetCellCoordinateComputation := by
  unfold facetCellCoordinateH
  simp [hpres]

/-- Claim C6 witness: the empty preserve set on the triangle domain. -/
theorem c6_facet_cell_coordinate_error_witness :
    facetCellCoordinateH [] DomTri =
      .error .missingFacetCellCoordinateComputation :=
  c6_facet_cell_coordinate_error [] DomTri (by decide)

/-- Claim C7: a Restricted node met while a side is already set raises the
double-restriction error; with no side set the node's subtree is delegated
to the propagator bound to the node's side, so in particular the doubly
nested Restricted(Restricted(e, +), -) always raises double-restriction. -/
theorem c7_double_restriction (ad : Bool) :
    (∀ (e : Expr) (s r : Side),
      propagateR ad (some r) (.restricted e s) = .error .doubleRestriction) ∧
    (∀ (e : Expr) (s : Side),
      propagateR ad none (.restricted e s) = propagateR ad (some s) e) ∧
    (∀ e : Expr,
      propagateR ad none (.restricted (.restricted e .plus) .minus) =
        .error .doubleRestriction) := by
  refine ⟨fun e s r => ?_, fun e s => ?_, fun e => ?_⟩ <;> rfl

/-- Claim C8: apply_restrictions transforms exactly the integrals whose
integral-type tag is an interior-facet type, replacing their integrand by
its restriction propagation from the unset side, and returns every other
integral unchanged. -/
theorem c8_only_interior_facet (ad : Bool) (f out : List Integral)
    (h : applyRestrictionsForm ad f = .ok out) :
    List.Forall₂ (fun a b =>
      (a.itype.isInteriorFacet = false → b = a) ∧
      (a.itype.isInteriorFacet = true →
        ∃ e, propagateR ad none a.integrand = .ok e ∧
          b = { a with integrand := e })) f out := by
  induction f generalizing out with
  | nil =>
    cases h
    constructor
  | cons itg rest ih =>
    unfold applyRestrictionsForm at h
    cases h1 : applyRestrictionsIntegral ad itg with
    | error err => rw [h1] at h; simp at h
    | ok itg2 =>
      rw [h1] at h
      cases h2 : applyRestrictionsForm ad rest with
      | error err => rw [h2] at h; simp at h
      | ok rest2 =>
        rw [h2] at h
        simp only [] at h
        injection h with hout
        subst hout
        constructor
        · unfold applyRestrictionsIntegral at h1
          by_cases hty : itg.itype.isInteriorFacet = true
          · rw [if_pos hty] at h1
            cases h3 : propagateR ad none itg.integrand with
            | error err => rw [h3] at h1; simp at h1
            | ok e =>
              rw [h3] at h1
              simp only [] at h1
              injection h1 with hi
              exact ⟨fun hf => absurd hty (by simp [hf]),
                fun _ => ⟨e, rfl, hi.symm⟩⟩
          · rw [if_neg hty] at h1
            injection h1 with hi
            exact ⟨fun _ => hi.symm, fun ht => absurd ht hty⟩
        · exact ih rest2 h2

/-- Sample two-integral form: one cell integral and one interior-facet
integral over a literal integrand. -/
def sampleForm : List Integral :=
  [⟨.floatValue 2, .cell⟩, ⟨.floatValue 2, .interiorFacet⟩]

/-- Claim C8 witness: on the sample form both integrals come back unchanged
(a literal integrand is side-independent) and the relation is established
by the theorem. -/
theorem c8_only_interior_facet_witness :
    List.Forall₂ (fun a b =>
      (a.itype.isInteriorFacet = false → b = a) ∧
      (a.itype.isInteriorFacet = true →
        ∃ e, propagateR true none a.integrand = .ok e ∧
          b = { a with integrand := e }))
      sampleForm sampleForm :=
  c8_only_interior_facet true sampleForm sampleForm (by decide)

/-- Claim C9: on an affine piecewise-linear simplex domain whose cell name
is none of interval, triangle or tetrahedron, the non-preserved circumradius
handler computes the cell volume, falls through every branch and returns
Python None (no expression and no error). -/
theorem c9_circumradius_fallthrough (P : List GKind) (D : Domain) (cv : Expr)
    (hpres : preserves P .tCircumradius = false)
    (haff : D.isPiecewiseLinearSimplex = true)
    (hint : D.cellname ≠ .interval)
    (htri : D.cellname ≠ .triangle)
    (htet : D.cellname ≠ .tetrahedron)
    (hcv : cellVolumeH P D = .ok cv) :
    circumradiusH P D = .ok none := by
  unfold circumradiusH
  simp [hpres, haff, hcv, hint, htri, htet, Except.bind]

/-- Claim C9 witness: the vertex-cell domain, whose cell volume still lowers
successfully while the circumradius handler returns None. -/
theorem c9_circumradius_fallthrough_witness :
    circumradiusH [] DomVertex = .ok none :=
  c9_circumradius_fallthrough [] DomVertex
    (.absE (.mult (.determinantExpr (.referenceGrad (.spatialCoordinate DomVertex)))
      (.referenceCellVolume DomVertex)))
    (by decide) (by decide) (by decide) (by decide) (by decide) (by decide)

/-- Claim C10: the restriction-propagation handler for Variable wrappers
returns the transformed wrapped operand with the wrapper and its label
stripped, so propagation is not the identity on restriction-free
expressions containing Variable nodes. -/
theorem c10_variable_stripped :
    (∀ (ad : Bool) (side : Option Side) (e : Expr) (lbl : Nat),
      propagateR ad side (.var e lbl) = propagateR ad side e) ∧
    propagateR true none (.var (.floatValue 2) 0) = .ok (.floatValue 2) ∧
    (Except.ok (Expr.floatValue 2) : Except RErr Expr) ≠
      .ok (.var (.floatValue 2) 0) := by
  refine ⟨fun ad side e lbl => rfl, by decide, by decide⟩

end UFL
